import Mathlib

/-!
Shallow embedding of the async-job core of the `elis` backend
(`app/tasks/image_extraction.py`, `app/tasks/trufor.py`,
`app/utils/docker_extraction.py`, `app/utils/docker_watermark.py`,
`app/services/resource_helpers.py`, `app/celery_config.py`),
with theorems checking the natural-language specification against it.

MongoDB collections are modelled as lists of typed records; `update_one`
applies a `$set` function to the first record matching the filter and
reports whether a record matched; `find_one` is `List.find?`.
Subprocess execution is modelled by an environment value describing the
outcome of the external run; Python exceptions are `Except.error` values
that the translated `try`/`except` arms pattern-match on.
-/

deriving instance DecidableEq for Except

namespace Elis

/-- Model of pymongo `update_one`: apply `set` to the first record that
matches `filt`, return the new collection and whether a record matched. -/
def updateOne (filt : α → Bool) (set : α → α) : List α → List α × Bool
  | [] => ([], false)
  | d :: ds =>
    if filt d then (set d :: ds, true)
    else
      let r := updateOne filt set ds
      (d :: r.1, r.2)

/-! ## External tool runs (subprocess model)

`subprocess.run` either returns a completed process (return code, stderr),
raises `subprocess.TimeoutExpired`, or raises some other exception. -/

/-- A Python exception escaping a modelled call. -/
inductive PyExc
  | timeoutExpired
  | genericExc (msg : String)
  deriving DecidableEq, Repr

/-- Outcome of one `docker run` subprocess invocation. -/
inductive DockerRun
  | timeout
  | raisesExc (msg : String)
  | exited (returncode : Int) (stderr : String)
  deriving DecidableEq, Repr

/-- Model of `subprocess.run` as a fallible call: timeouts and launch failures are
raised exceptions, a finished container is returned. -/
def runSubprocess : DockerRun → Except PyExc (Int × String)
  | .timeout => .error .timeoutExpired
  | .raisesExc m => .error (.genericExc m)
  | .exited rc stderr => .ok (rc, stderr)

/-! ## `app/utils/docker_extraction.py` : `extract_images_with_docker` -/

/-- The filename suffixes counted as extracted images
(`docker_extraction.py` line 120). -/
def imageExtensions : List String :=
  [".png", ".jpg", ".jpeg", ".gif", ".webp", ".tiff", ".bmp"]

/-- The check `f.lower().endswith((...))` from `docker_extraction.py` lines 118-121. -/
def isImageFile (f : String) : Bool :=
  imageExtensions.any fun ext => f.toLower.endsWith ext

/-- Environment for one run of the extraction container: whether the input
PDF exists, what the subprocess does, and what the output directory holds
afterwards. -/
structure ExtractionEnv where
  pdfExists : Bool
  run : DockerRun
  outputDirExists : Bool
  outputFiles : List String
  deriving DecidableEq, Repr

/-- Model of `extract_images_with_docker(doc_id, user_id, pdf_file_path, ...)`
(`docker_extraction.py` lines 12-146).  `output_dir` stands for the result
of `get_extraction_output_path(user_id, doc_id)` (defined in
`app/utils/file_storage.py`, which only the messages depend on).
Every tool-side failure is returned as `(0, errors)`; the `Except` codomain
records that the translated `try`/`except` arms catch the raised
exceptions from `runSubprocess`. -/
def extract_images_with_docker (doc_id pdf_file_path output_dir : String)
    (env : ExtractionEnv) : Except PyExc (Nat × List String) :=
  if !env.pdfExists then
    .ok (0, ["PDF file not found: " ++ pdf_file_path])
  else
    match runSubprocess env.run with
    | .error .timeoutExpired =>
        .ok (0, ["Docker extraction timeout for doc_id=" ++ doc_id ++ " (5 minutes)"])
    | .error (.genericExc m) =>
        .ok (0, ["Docker extraction error for doc_id=" ++ doc_id ++ ": " ++ m])
    | .ok (rc, stderr) =>
        if rc != 0 then
          let base := "Docker extraction failed with return code " ++ toString rc
          .ok (0, [if stderr != "" then base ++ ": " ++ stderr else base])
        else if env.outputDirExists then
          .ok ((env.outputFiles.filter isImageFile).length, [])
        else
          .ok (0, ["Output directory not created: " ++ output_dir])

/-! ## `app/celery_config.py` and task decorators -/

/-- The setting `max_retries=3` on `@celery_app.task` (`image_extraction.py` line 16)
and `task_max_retries=3` (`celery_config.py` line 39). -/
def celery_task_max_retries : Nat := 3

/-- The setting `task_default_retry_delay=60` (`celery_config.py` line 40); used by a
`self.retry(...)` call that passes no `countdown`. -/
def task_default_retry_delay : Nat := 60

/-! ## `app/tasks/image_extraction.py` : `extract_images_from_document` -/

/-- One file reported by the extraction hook
(`{'filename', 'path', 'size'}` dicts, `image_extraction.py` lines 78-83). -/
structure FileInfo where
  filename : String
  path : String
  size : Nat
  deriving DecidableEq, Repr

/-- A document record in the `documents` collection, restricted to the
fields the task reads or writes.  `none` models an absent field. -/
structure DocRecord where
  docId : String
  extraction_status : Option String := none
  extraction_started_at : Option Nat := none
  extraction_retry_count : Option Nat := none
  extracted_image_count : Option Nat := none
  extracted_images : Option (List FileInfo) := none
  extraction_errors : Option (List String) := none
  extraction_completed_at : Option Nat := none
  deriving DecidableEq, Repr

/-- An image record inserted into the `images` collection
(`image_extraction.py` lines 79-88). -/
structure ImageRecord where
  user_id : String
  filename : String
  file_path : String
  file_size : Nat
  source_type : String
  document_id : String
  uploaded_date : Nat
  deriving DecidableEq, Repr

/-- The `$set` of the status-to-processing update
(`image_extraction.py` lines 44-53). -/
def setProcessingExtraction (now retries : Nat) (d : DocRecord) : DocRecord :=
  { d with
    extraction_status := some "processing"
    extraction_started_at := some now
    extraction_retry_count := some retries }

/-- The `$set` of the final-results update
(`image_extraction.py` lines 91-102). -/
def setFinalExtraction (status : String) (count : Nat) (files : List FileInfo)
    (errors : List String) (now : Nat) (d : DocRecord) : DocRecord :=
  { d with
    extraction_status := some status
    extracted_image_count := some count
    extracted_images := some files
    extraction_errors := some errors
    extraction_completed_at := some now }

/-- The `$set` of the `SoftTimeLimitExceeded` handler
(`image_extraction.py` lines 114-122). -/
def setTimeoutFailedExtraction (d : DocRecord) : DocRecord :=
  { d with
    extraction_status := some "failed"
    extraction_errors := some ["Task execution timeout"] }

/-- The status classification (`image_extraction.py` lines 62-68); a Python
list is truthy iff nonempty. -/
def determineExtractionStatus (extraction_errors : List String)
    (extracted_count : Nat) : String :=
  if extraction_errors ≠ [] ∧ extracted_count > 0 then "completed_with_errors"
  else if extraction_errors ≠ [] ∧ extracted_count = 0 then "failed"
  else "completed"

/-- What `figure_extraction_hook` does on one attempt: return
`(extracted_count, extraction_errors, extracted_files)`, raise
`SoftTimeLimitExceeded`, or raise some other exception. -/
inductive HookBehavior
  | returns (extracted_count : Nat) (extraction_errors : List String)
      (extracted_files : List FileInfo)
  | raisesSoftTimeLimit
  | raisesExc (msg : String)
  deriving DecidableEq, Repr

/-- Database state the extraction task touches. -/
structure ExtState where
  documents : List DocRecord
  images : List ImageRecord
  deriving DecidableEq, Repr

/-- How one attempt of the task body ends. -/
inductive ExtOutcome
  | completedReturn (status : String)
  | softTimeoutEscalated
  | retryRequested (countdown : Nat) (excMsg : String)
  deriving DecidableEq, Repr

/-- One `insert_one` per extracted file (`image_extraction.py` lines 76-88). -/
def insertImages (user_id doc_id : String) (files : List FileInfo) (now : Nat)
    (imgs : List ImageRecord) : List ImageRecord :=
  imgs ++ files.map fun f =>
    { user_id := user_id, filename := f.filename, file_path := f.path
      file_size := f.size, source_type := "extracted", document_id := doc_id
      uploaded_date := now }

/-- One attempt of the task body `extract_images_from_document`
(`image_extraction.py` lines 17-132), with `self.request.retries = retries`
and the hook's behaviour given by `hook`.  Returns the snapshots of the
database state after each write (last snapshot = state when the attempt
ends) together with the control outcome:
a normal return, the re-raised `SoftTimeLimitExceeded`, or the
`self.retry(exc=exc, countdown=60 * 2 ** retries)` call of line 132. -/
def extract_images_from_document (doc_id user_id : String) (retries : Nat)
    (hook : HookBehavior) (now : Nat) (st : ExtState) :
    List ExtState × ExtOutcome :=
  let byId : DocRecord → Bool := fun d => d.docId == doc_id
  let st1 : ExtState :=
    { st with documents := (updateOne byId (setProcessingExtraction now retries) st.documents).1 }
  match hook with
  | .returns extracted_count extraction_errors extracted_files =>
    let status := determineExtractionStatus extraction_errors extracted_count
    let st2 : ExtState :=
      { st1 with images := insertImages user_id doc_id extracted_files now st1.images }
    let st3 : ExtState :=
      { st2 with documents := (updateOne byId
          (setFinalExtraction status extracted_count extracted_files extraction_errors now)
          st2.documents).1 }
    ([st1, st2, st3], .completedReturn status)
  | .raisesSoftTimeLimit =>
    let st2 : ExtState :=
      { st1 with documents := (updateOne byId setTimeoutFailedExtraction st1.documents).1 }
    ([st1, st2], .softTimeoutEscalated)
  | .raisesExc msg =>
    ([st1], .retryRequested (60 * 2 ^ retries) msg)

/-- How a whole job (a sequence of attempts driven by the Celery worker)
ends. -/
inductive DriverOutcome
  | succeeded (status : String)
  | softTimeoutFailure
  | maxRetriesExceededEscaped (excMsg : String)
  | outOfScenario
  deriving DecidableEq, Repr

/-- Celery driving the task: run an attempt; on `self.retry`, re-enqueue
with `retries + 1` unless that exceeds `max_retries`, in which case
`MaxRetriesExceededError` escapes and no further attempt runs
(semantics of `celery.app.task.Task.retry` with `max_retries=3`).
`hooks` supplies the hook behaviour of each attempt; an exhausted list
ends the scenario.  Returns all database snapshots and the final
outcome. -/
def runExtractionJob (doc_id user_id : String) (now : Nat) :
    List HookBehavior → Nat → ExtState → List ExtState × DriverOutcome
  | [], _, _ => ([], .outOfScenario)
  | hook :: hooks, retries, st =>
    let r := extract_images_from_document doc_id user_id retries hook now st
    match r.2 with
    | .completedReturn s => (r.1, .succeeded s)
    | .softTimeoutEscalated => (r.1, .softTimeoutFailure)
    | .retryRequested _ msg =>
      if celery_task_max_retries < retries + 1 then
        (r.1, .maxRetriesExceededEscaped msg)
      else
        let rest := runExtractionJob doc_id user_id now hooks (retries + 1)
          (r.1.getLastD st)
        (r.1 ++ rest.1, rest.2)

/-! ## `app/tasks/trufor.py` : `detect_trufor` -/

/-- The enumeration `AnalysisStatus` from `app/schemas` (values referenced by the task:
`PROCESSING`, `COMPLETED`, `FAILED`). -/
inductive AnalysisStatus
  | processing
  | completed
  | failed
  deriving DecidableEq, Repr

/-- The `results_dict` stored on success (`trufor.py` lines 78-86). -/
structure TruforResultsDict where
  timestamp : Nat
  pred_map : Option String
  conf_map : Option String
  files : Option (List String)
  noiseprint : Option String
  deriving DecidableEq, Repr

/-- An analysis record in the `analyses` collection, restricted to the
fields the task reads or writes. -/
structure AnalysisRecord where
  analysisId : String
  status : Option AnalysisStatus := none
  status_message : Option String := none
  error : Option String := none
  results : Option TruforResultsDict := none
  updated_at : Option Nat := none
  deriving DecidableEq, Repr

/-- The dict returned by `run_trufor_detection_with_docker`
(`app/utils/docker_trufor.py`, read via `results.get(...)`). -/
structure TruforRunReturn where
  success : Bool
  message : String
  pred_map : Option String
  conf_map : Option String
  files : Option (List String)
  noiseprint : Option String
  deriving DecidableEq, Repr

/-- What `run_trufor_detection_with_docker` does on one attempt. -/
inductive TruforRunBehavior
  | returns (r : TruforRunReturn)
  | raisesExc (msg : String)
  deriving DecidableEq, Repr

/-- Environment of one attempt: the run's behaviour and whether the
failed-status write inside the `except` handler itself raises
(the handler wraps it in `try: ... except: pass`, `trufor.py`
lines 120-133). -/
structure TruforEnv where
  run : TruforRunBehavior
  handlerWriteRaises : Bool
  deriving DecidableEq, Repr

/-- The `$set` of the status-to-processing update
(`trufor.py` lines 54-63). -/
def setProcessingTrufor (now : Nat) (a : AnalysisRecord) : AnalysisRecord :=
  { a with
    status := some .processing
    status_message := some "Starting TruFor detection..."
    updated_at := some now }

/-- Building `results_dict` (`trufor.py` lines 78-86); `noiseprint` is
included only when truthy. -/
def mkResultsDict (now : Nat) (r : TruforRunReturn) : TruforResultsDict :=
  { timestamp := now
    pred_map := r.pred_map
    conf_map := r.conf_map
    files := r.files
    noiseprint := if r.noiseprint.getD "" ≠ "" then r.noiseprint else none }

/-- The `$set` of the success update (`trufor.py` lines 89-99).
Note it does not touch the `error` field. -/
def setCompletedTrufor (now : Nat) (results_dict : TruforResultsDict)
    (a : AnalysisRecord) : AnalysisRecord :=
  { a with
    status := some .completed
    status_message := some "Completed"
    results := some results_dict
    updated_at := some now }

/-- The `$set` of the two failure updates (`trufor.py` lines 105-115 with
`status_message = "Failed"`, lines 120-131 with
`status_message = "System Error"`).  Note it does not touch `results`. -/
def setFailedTrufor (now : Nat) (err status_message : String)
    (a : AnalysisRecord) : AnalysisRecord :=
  { a with
    status := some .failed
    status_message := some status_message
    error := some err
    updated_at := some now }

/-- Result of one attempt of `detect_trufor`: the collection afterwards,
whether the `except` handler attempted the failed-status write, and the
control outcome. -/
structure TruforAttemptResult where
  analyses : List AnalysisRecord
  attemptedFailedWrite : Bool
  outcome : ExtOutcome
  deriving DecidableEq, Repr

/-- One attempt of the task body `detect_trufor` (`trufor.py` lines
17-134).  On an exception from the run, the handler attempts a
failed-status write inside `try: ... except: pass` (a raising write
leaves the collection unchanged but never escapes) and then calls
`raise self.retry(exc=e)` — no `countdown`, so the configured
`task_default_retry_delay` applies. -/
def detect_trufor (analysis_id : String) (env : TruforEnv) (now : Nat)
    (analyses : List AnalysisRecord) : TruforAttemptResult :=
  let byId : AnalysisRecord → Bool := fun a => a.analysisId == analysis_id
  let a1 := (updateOne byId (setProcessingTrufor now) analyses).1
  match env.run with
  | .returns r =>
    if r.success then
      let a2 := (updateOne byId (setCompletedTrufor now (mkResultsDict now r)) a1).1
      { analyses := a2, attemptedFailedWrite := false
        outcome := .completedReturn "completed" }
    else
      let a2 := (updateOne byId (setFailedTrufor now r.message "Failed") a1).1
      { analyses := a2, attemptedFailedWrite := false
        outcome := .completedReturn "failed" }
  | .raisesExc msg =>
    let a2 :=
      if env.handlerWriteRaises then a1
      else (updateOne byId (setFailedTrufor now msg "System Error") a1).1
    { analyses := a2, attemptedFailedWrite := true
      outcome := .retryRequested task_default_retry_delay msg }

/-! ## The `$set` documents of the two processing transitions, verbatim

Used to check the spec's lease-expiry requirement: the claim is about the
keys and values these updates write. -/

/-- A value stored by a `$set` document: a string, a timestamp
(`datetime.utcnow()` at write time), or an integer. -/
inductive BsonValue
  | strV (s : String)
  | timeV (t : Nat)
  | natV (n : Nat)
  deriving DecidableEq, Repr

/-- The `$set` document of the processing update in
`image_extraction.py` lines 46-52, as written. -/
def extractionProcessingSet (now retries : Nat) : List (String × BsonValue) :=
  [("extraction_status", .strV "processing"),
   ("extraction_started_at", .timeV now),
   ("extraction_retry_count", .natV retries)]

/-- The `$set` document of the processing update in
`trufor.py` lines 56-61, as written. -/
def truforProcessingSet (now : Nat) : List (String × BsonValue) :=
  [("status", .strV "processing"),
   ("status_message", .strV "Starting TruFor detection..."),
   ("updated_at", .timeV now)]

/-- Modelled from the spec: "each `processing` transition records a lease
expiry".  A lease expiry is a stored time strictly in the future of the
transition (`now < t`); a sweep could then compare it against the clock.
No such mechanism is present in the source, so this definition follows
the spec's words and is compared with the verbatim `$set` documents. -/
def recordsLeaseExpiry (set : List (String × BsonValue)) (now : Nat) : Bool :=
  set.any fun kv =>
    match kv.2 with
    | .timeV t => decide (now < t)
    | _ => false

/-! ## `app/utils/docker_watermark.py` : `remove_watermark_with_docker` -/

/-- Model of `os.path.basename`: the part after the last `/`. -/
def basename (p : String) : String :=
  (p.split fun c => c == '/').getLastD p

/-- Model of `os.path.dirname`: the part before the last `/`. -/
def dirname (p : String) : String :=
  String.intercalate "/" (p.split fun c => c == '/').dropLast

/-- The base of `os.path.splitext`: the name with its last extension
dropped. -/
def stripExt (name : String) : String :=
  let parts := name.split fun c => c == '.'
  if parts.length ≤ 1 then name
  else String.intercalate "." parts.dropLast

/-- The `output_file_info` dict (`docker_watermark.py` lines 138-144). -/
structure WFileInfo where
  filename : String
  path : String
  size : Nat
  status : String
  aggressiveness_mode : Int
  deriving DecidableEq, Repr

/-- Filesystem / subprocess effects of the watermark invoker, in order. -/
inductive WEffect
  | checksInputFile
  | runsSubprocess
  | checksOutputFile
  deriving DecidableEq, Repr

/-- Environment for one watermark-removal invocation. -/
structure WatermarkEnv where
  pdfExists : Bool
  run : DockerRun
  outputFileCreated : Bool
  outputFileSize : Nat
  deriving DecidableEq, Repr

/-- The error message of the aggressiveness validation
(`docker_watermark.py` line 70). -/
def invalidModeMsg (mode : Int) : String :=
  "Invalid aggressiveness mode: " ++ toString mode ++ ". Must be 1, 2, or 3."

/-- The timeout message (`docker_watermark.py` lines 159-162);
`timeoutSecs` stands for `DOCKER_EXTRACTION_TIMEOUT` from
`app/config/settings.py`. -/
def watermarkTimeoutMsg (timeoutSecs : Nat) (doc_id : String) : String :=
  "Watermark removal timed out after " ++ toString timeoutSecs ++
    " seconds for doc_id=" ++ doc_id

/-- Model of `remove_watermark_with_docker(doc_id, user_id, pdf_file_path,
aggressiveness_mode, ...)` (`docker_watermark.py` lines 22-174).
The aggressiveness validation (lines 68-72) runs before the `try` block,
before any filesystem check and before the subprocess; the effect trace
records what was touched.  All failure modes are returned
(`Except.ok` with `success = False`); the raised subprocess exceptions
are caught by the inner `except` arms of lines 158-169. -/
def remove_watermark_with_docker (doc_id pdf_file_path : String)
    (aggressiveness_mode : Int) (timeoutSecs : Nat) (env : WatermarkEnv) :
    Except PyExc (Bool × String × Option WFileInfo) × List WEffect :=
  if aggressiveness_mode ∉ ([1, 2, 3] : List Int) then
    (.ok (false, invalidModeMsg aggressiveness_mode, none), [])
  else if !env.pdfExists then
    (.ok (false, "PDF file not found: " ++ pdf_file_path, none), [.checksInputFile])
  else
    let pdf_filename := basename pdf_file_path
    let output_filename := stripExt pdf_filename ++ "_watermark_removed_m" ++
      toString aggressiveness_mode ++ ".pdf"
    let output_file_path := dirname pdf_file_path ++ "/" ++ output_filename
    match runSubprocess env.run with
    | .error .timeoutExpired =>
        (.ok (false, watermarkTimeoutMsg timeoutSecs doc_id, none),
         [.checksInputFile, .runsSubprocess])
    | .error (.genericExc m) =>
        (.ok (false, "Docker execution error for doc_id=" ++ doc_id ++ ": " ++ m, none),
         [.checksInputFile, .runsSubprocess])
    | .ok (_rc, _stderr) =>
        if env.outputFileCreated then
          let info : WFileInfo :=
            { filename := output_filename, path := output_file_path
              size := env.outputFileSize, status := "completed"
              aggressiveness_mode := aggressiveness_mode }
          (.ok (true,
            "Watermark removal successful for doc_id=" ++ doc_id ++ ". Output: " ++
              output_filename ++ " (" ++ toString env.outputFileSize ++ " bytes)",
            some info),
           [.checksInputFile, .runsSubprocess, .checksOutputFile])
        else
          (.ok (false, "Docker did not produce output file: " ++ output_file_path, none),
           [.checksInputFile, .runsSubprocess, .checksOutputFile])

/-! ## `app/services/resource_helpers.py` : `get_owned_resource` -/

/-- A document of an arbitrary user-owned collection, restricted to the
fields `get_owned_resource` filters on plus an opaque payload. -/
structure ResourceDoc where
  rid : String
  user_id : String
  payload : String
  deriving DecidableEq, Repr

/-- Validity of an id: `bson.ObjectId(s)` succeeds iff `s` is a 24-character hex string. -/
def isValidObjectId (s : String) : Bool :=
  s.length == 24 && s.toList.all fun c =>
    c.isDigit || ('a' ≤ c && c ≤ 'f') || ('A' ≤ c && c ≤ 'F')

/-- The exceptions `get_owned_resource` raises (`app/exceptions.py`);
`resourceNotFoundError` carries `resource_type`, `resource_id` and the
message passed to the constructor. -/
inductive ElisError
  | validationError (message : String)
  | resourceNotFoundError (resource_type : String) (resource_id : Option String)
      (message : String)
  deriving DecidableEq, Repr

/-- Model of `get_owned_resource(collection_getter, resource_id, user_id,
resource_name)` (`resource_helpers.py` lines 14-59): validate the id
format, then `find_one({"_id": oid, "user_id": user_id})`; a missing
document and a document owned by someone else both fall through to the
same `ResourceNotFoundError`. -/
def get_owned_resource (col : List ResourceDoc)
    (resource_id user_id resource_name : String) :
    Except ElisError ResourceDoc :=
  if !isValidObjectId resource_id then
    .error (.validationError ("Invalid " ++ resource_name.toLower ++ " ID format"))
  else
    match col.find? fun r => r.rid == resource_id && r.user_id == user_id with
    | some r => .ok r
    | none =>
      .error (.resourceNotFoundError resource_name (some resource_id)
        (resource_name ++ " not found or doesn't belong to you"))

/-! ## Concrete scenario vectors and predicates used by the theorems -/

/-- A successful `run_trufor_detection_with_docker` return. -/
def truforOkRun : TruforRunReturn :=
  { success := true, message := "ok", pred_map := some "p.png",
    conf_map := some "c.png", files := some ["p.png", "c.png"],
    noiseprint := none }

/-- Whether a modelled Python call returned a value (rather than let an
exception escape to its caller). -/
def returnsResult : Except PyExc α → Bool
  | .ok _ => true
  | .error _ => false

/-- Every document's recorded `extraction_retry_count` is within the
configured retry ceiling. -/
def docsRetryCountOK (st : ExtState) : Bool :=
  st.documents.all fun r =>
    decide (r.extraction_retry_count.getD 0 ≤ celery_task_max_retries)

/-! # Theorems -/

/-! ## Helper lemmas about the collection model -/

theorem updateOne_snd (filt : α → Bool) (set : α → α) :
    ∀ col : List α, (updateOne filt set col).2 = col.any filt := by
  intro col
  induction col with
  | nil => rfl
  | cons d ds ih =>
    by_cases h : filt d = true <;> simp [updateOne, h, ih]

theorem updateOne_fst_any (filt : α → Bool) (set : α → α)
    (hset : ∀ d, filt (set d) = filt d) :
    ∀ col : List α, (updateOne filt set col).1.any filt = col.any filt := by
  intro col
  induction col with
  | nil => rfl
  | cons d ds ih =>
    by_cases h : filt d = true <;> simp [updateOne, h, hset, ih]

theorem updateOne_all (filt : α → Bool) (set : α → α) (p : α → Bool)
    (hset : ∀ d, p d = true → p (set d) = true) :
    ∀ col : List α, col.all p = true → (updateOne filt set col).1.all p = true := by
  intro col
  induction col with
  | nil => simp [updateOne]
  | cons d ds ih =>
    intro hcol
    simp only [List.all_cons, Bool.and_eq_true] at hcol
    by_cases h : filt d = true
    · simp only [updateOne, h, ite_true, List.all_cons, Bool.and_eq_true]
      exact ⟨hset d hcol.1, hcol.2⟩
    · simp only [updateOne, h, Bool.false_eq_true, ite_false, List.all_cons,
        Bool.and_eq_true]
      exact ⟨hcol.1, ih hcol.2⟩

theorem getLastD_mem_or_eq : ∀ (l : List α) (a : α), l.getLastD a ∈ l ∨ l.getLastD a = a
  | [], _ => Or.inr rfl
  | x :: xs, a => by
    rw [List.getLastD_cons]
    rcases getLastD_mem_or_eq xs x with h | h
    · exact Or.inl (List.mem_cons_of_mem x h)
    · rw [h]
      exact Or.inl (List.mem_cons_self x xs)

/-! ## C1 — conditional status transitions -/

/-- C1: counterexample.  The Job Executor's status updates are not
conditional on the current status: the move-to-processing update applies
to a job already in the terminal status "completed" and reports a match,
and replaying the terminal update (processing → completed) applies its
effects a second time (the replay rewrites `extraction_completed_at` to
the later write time) and again reports a match instead of returning
false. -/
theorem processing_update_applies_to_completed_job :
    let d : DocRecord := { docId := "d1", extraction_status := some "completed" }
    let byId : DocRecord → Bool := fun x => x.docId == "d1"
    let r1 := updateOne byId (setProcessingExtraction 5 0) [d]
    let r2 := updateOne byId (setFinalExtraction "completed" 1 [] [] 10) [d]
    let r3 := updateOne byId (setFinalExtraction "completed" 1 [] [] 20) r2.1
    r1.2 = true ∧
    r1.1.map (fun x => x.extraction_status) = [some "processing"] ∧
    r2.2 = true ∧ r3.2 = true ∧
    r2.1.map (fun x => x.extraction_completed_at) = [some 10] ∧
    r3.1.map (fun x => x.extraction_completed_at) = [some 20] := by
  decide

/-- C1 (amended): the Job Executor's status updates filter on the job id
only — the move-to-processing update and the terminal update apply exactly
when a record with the id is present, whatever its current status, and a
replayed terminal update matches and applies again rather than returning
false. -/
theorem status_updates_match_iff_id_present (i s : String) (n c t t2 : Nat)
    (fs : List FileInfo) (es : List String) (col : List DocRecord) :
    (updateOne (fun d => d.docId == i) (setProcessingExtraction t n) col).2
        = col.any (fun d => d.docId == i) ∧
    (updateOne (fun d => d.docId == i) (setFinalExtraction s c fs es t) col).2
        = col.any (fun d => d.docId == i) ∧
    (updateOne (fun d => d.docId == i) (setFinalExtraction s c fs es t2)
        (updateOne (fun d => d.docId == i) (setFinalExtraction s c fs es t) col).1).2
        = col.any (fun d => d.docId == i) := by
  refine ⟨updateOne_snd _ _ col, updateOne_snd _ _ col, ?_⟩
  rw [updateOne_snd]
  exact updateOne_fst_any (fun d => d.docId == i)
    (setFinalExtraction s c fs es t) (fun d => rfl) col

/-! ## C2 — success with zero artifacts -/

/-- C2: counterexample.  A run in which the external tool exits with code
0 and produces zero output files yields `(0, [])` from the invoker, and
the Job Executor classifies zero errors with zero artifacts as
"completed": the terminal status written is "completed", not "failed". -/
theorem zero_artifacts_no_errors_written_completed :
    extract_images_with_docker "d1" "/data/in.pdf" "/data/out"
      { pdfExists := true, run := .exited 0 "", outputDirExists := true,
        outputFiles := [] } = .ok (0, []) ∧
    determineExtractionStatus [] 0 = "completed" ∧
    ((extract_images_from_document "d1" "u1" 0 (.returns 0 [] []) 9
        { documents := [{ docId := "d1" }], images := [] }).1.getLastD
        { documents := [], images := [] }).documents.map
      (fun d => d.extraction_status) = [some "completed"] := by
  decide

/-- C2 (amended): with zero artifacts the Job Executor writes "failed"
exactly when the tool reported at least one error; with zero artifacts
and zero reported errors it writes "completed". -/
theorem zero_artifacts_failed_iff_errors (errors : List String) (d u : String)
    (now : Nat) (st : ExtState) :
    determineExtractionStatus errors 0
        = (if errors = [] then "completed" else "failed") ∧
    (extract_images_from_document d u 0 (.returns 0 errors []) now st).2
        = .completedReturn (if errors = [] then "completed" else "failed") := by
  cases errors <;>
    simp [determineExtractionStatus, extract_images_from_document]

/-! ## C8 — lease expiry on processing transitions -/

/-- C8: counterexample.  At transition time 100 neither processing
transition records a lease expiry: every timestamp either `$set` document
stores is the transition time itself, never a future expiry, so
`recordsLeaseExpiry` — the spec's requirement — is false for both. -/
theorem processing_transitions_record_no_lease_expiry :
    recordsLeaseExpiry (extractionProcessingSet 100 0) 100 = false ∧
    recordsLeaseExpiry (truforProcessingSet 100) 100 = false := by
  decide

/-- C8 (amended): for every transition time and retry count the processing
transitions write only the status, a message or retry count, and the
current time (`datetime.utcnow()`); no lease expiry is recorded, and the
repository has no sweep that returns an expired `processing` job to
"queued". -/
theorem processing_sets_write_only_current_time (now retries : Nat) :
    recordsLeaseExpiry (extractionProcessingSet now retries) now = false ∧
    recordsLeaseExpiry (truforProcessingSet now) now = false := by
  simp [recordsLeaseExpiry, extractionProcessingSet, truforProcessingSet]

/-! ## C3 — best-effort failed write before an exception escapes -/

/-- C3: counterexample.  In the extraction task a generic exception from
the hook escapes via `self.retry` without any attempt to persist a
"failed" status: the only write of the attempt is the move to
"processing", which is also the status the job is left in when the
exception escapes. -/
theorem generic_exception_escapes_without_failed_write :
    extract_images_from_document "d1" "u1" 0 (.raisesExc "boom") 9
      { documents := [{ docId := "d1" }], images := [] }
    = ([{ documents :=
            [{ docId := "d1", extraction_status := some "processing",
               extraction_started_at := some 9, extraction_retry_count := some 0 }],
          images := [] }],
       .retryRequested 60 "boom") := by
  decide

/-- C3 (amended): only the TruFor task guarantees a best-effort "failed"
write before an exception escapes — on every exception it attempts the
write, and a failure of that write is swallowed (the outcome is the same
retry raise whether or not the write raises).  The extraction task writes
"failed" only in its soft-time-limit handler; for any other exception it
escapes via retry leaving the job in "processing", with no failed
write. -/
theorem failed_write_policy_by_task (aid did u msg : String) (now retries : Nat)
    (wr : Bool) (analyses : List AnalysisRecord) :
    (detect_trufor aid { run := .raisesExc msg, handlerWriteRaises := wr } now
        analyses).attemptedFailedWrite = true ∧
    (detect_trufor aid { run := .raisesExc msg, handlerWriteRaises := wr } now
        analyses).outcome = .retryRequested task_default_retry_delay msg ∧
    ((detect_trufor aid { run := .raisesExc msg, handlerWriteRaises := false } now
        [{ analysisId := aid }]).analyses).map (fun a => (a.status, a.error))
      = [(some .failed, some msg)] ∧
    ((extract_images_from_document did u retries .raisesSoftTimeLimit now
        { documents := [{ docId := did }], images := [] }).1.getLastD
        { documents := [], images := [] }).documents.map
      (fun d => d.extraction_status) = [some "failed"] ∧
    (extract_images_from_document did u retries (.raisesExc msg) now
        { documents := [{ docId := did }], images := [] })
      = ([{ documents :=
              [{ docId := did, extraction_status := some "processing",
                 extraction_started_at := some now,
                 extraction_retry_count := some retries }],
            images := [] }],
         .retryRequested (60 * 2 ^ retries) msg) := by
  refine ⟨?_, ?_, ?_, ?_, ?_⟩ <;>
    simp [detect_trufor, extract_images_from_document, updateOne,
      setProcessingTrufor, setFailedTrufor, setProcessingExtraction,
      setTimeoutFailedExtraction]

/-! ## C4 — mutual exclusion of `result` and `error` -/

/-- C4: counterexample.  A failed attempt (an exception writes status
failed with `error` populated) followed by a successful retry leaves the
job in terminal status completed with BOTH `results` and `error`
populated, because the success update never clears `error`. -/
theorem completed_retry_keeps_stale_error :
    ((detect_trufor "a1" { run := .returns truforOkRun, handlerWriteRaises := false } 9
      (detect_trufor "a1" { run := .raisesExc "boom", handlerWriteRaises := false } 8
        [{ analysisId := "a1" }]).analyses).analyses).map
      (fun a => (a.status, a.error, a.results.isSome))
    = [(some .completed, some "boom", true)] := by
  decide

/-- C4 (amended): mutual exclusion of `results` and `error` holds for a
job history without a failed attempt preceding a successful one: a single
attempt on a fresh record never populates both.  It does not hold across
a failed attempt followed by a successful retry, since the success update
does not clear `error`. -/
theorem single_attempt_error_results_exclusive (aid : String) (env : TruforEnv)
    (now : Nat) :
    ((detect_trufor aid env now [{ analysisId := aid }]).analyses.all
      (fun a => !(a.error.isSome && a.results.isSome))) = true := by
  obtain ⟨run, wr⟩ := env
  cases run with
  | returns r =>
    cases hr : r.success <;>
      simp [detect_trufor, updateOne, setProcessingTrufor, setCompletedTrufor,
        setFailedTrufor, hr]
  | raisesExc m =>
    cases wr <;>
      simp [detect_trufor, updateOne, setProcessingTrufor, setFailedTrufor]

/-! ## C5 — backoff schedule and retry exhaustion -/

/-- C5: counterexample.  A retryable TruFor failure with `retry_count = 1`
is re-enqueued after the constant configured default delay of 60s, not
`60 · 2¹ = 120s`; and when retries are exhausted the extraction job is not
finalized as failed: after four generic-failure attempts
`MaxRetriesExceededError` escapes and the job's status is still
"processing". -/
theorem trufor_delay_constant_and_exhaustion_not_failed :
    (detect_trufor "a1" { run := .raisesExc "boom", handlerWriteRaises := false } 8
      [{ analysisId := "a1" }]).outcome = .retryRequested 60 "boom" ∧
    (60 : Nat) ≠ 60 * 2 ^ 1 ∧
    (runExtractionJob "d1" "u1" 7
      [.raisesExc "x", .raisesExc "x", .raisesExc "x", .raisesExc "x"] 0
      { documents := [{ docId := "d1" }], images := [] }).2
      = .maxRetriesExceededEscaped "x" ∧
    ((runExtractionJob "d1" "u1" 7
      [.raisesExc "x", .raisesExc "x", .raisesExc "x", .raisesExc "x"] 0
      { documents := [{ docId := "d1" }], images := [] }).1.getLastD
      { documents := [], images := [] }).documents.map (fun d => d.extraction_status)
      = [some "processing"] := by
  decide

/-- C5 (amended): the extraction task re-enqueues a retryable failure with
delay `60 · 2 ^ retry_count` (60s, 120s, 240s for its three retries), but
the TruFor task re-enqueues with the constant configured default delay of
60s; and when `retry_count` would exceed `max_retries` neither task
re-enqueues — `MaxRetriesExceededError` escapes and the extraction job is
left with its last written status instead of being finalized as
failed. -/
theorem retry_delays_and_exhaustion (d u aid msg : String) (now retries : Nat)
    (wr : Bool) (st : ExtState) (analyses : List AnalysisRecord)
    (hooks : List HookBehavior)
    (hexh : celery_task_max_retries < retries + 1) :
    (extract_images_from_document d u retries (.raisesExc msg) now st).2
        = .retryRequested (60 * 2 ^ retries) msg ∧
    (detect_trufor aid { run := .raisesExc msg, handlerWriteRaises := wr } now
        analyses).outcome = .retryRequested 60 msg ∧
    (runExtractionJob d u now (.raisesExc msg :: hooks) retries st).2
        = .maxRetriesExceededEscaped msg := by
  refine ⟨rfl, ?_, ?_⟩
  · simp [detect_trufor, task_default_retry_delay]
  · simp [runExtractionJob, extract_images_from_document, hexh]

/-- Witness for `retry_delays_and_exhaustion` at `retries = 3`. -/
theorem retry_delays_and_exhaustion_witness :
    celery_task_max_retries < 3 + 1 ∧
    ((extract_images_from_document "d" "u" 3 (.raisesExc "m") 1
        { documents := [{ docId := "d" }], images := [] }).2
        = .retryRequested (60 * 2 ^ 3) "m" ∧
     (detect_trufor "a" { run := .raisesExc "m", handlerWriteRaises := false } 1
        [{ analysisId := "a" }]).outcome = .retryRequested 60 "m" ∧
     (runExtractionJob "d" "u" 1 [.raisesExc "m"] 3
        { documents := [{ docId := "d" }], images := [] }).2
        = .maxRetriesExceededEscaped "m") :=
  ⟨by decide,
   retry_delays_and_exhaustion "d" "u" "a" "m" 1 3 false
     { documents := [{ docId := "d" }], images := [] } [{ analysisId := "a" }] []
     (by decide)⟩

/-! ## C9 — retry_count never exceeds max_retries -/

/-- C9: counterexample.  Exceeding the retry ceiling does not force
`status = failed` in the extraction task: after four generic-failure
attempts the retries are exhausted, `MaxRetriesExceededError` escapes,
and the job's status remains "processing" — even though every recorded
`extraction_retry_count` stayed within the ceiling. -/
theorem exhausted_retries_leave_processing_status :
    ((runExtractionJob "doc9" "u9" 3
      [.raisesExc "e9", .raisesExc "e9", .raisesExc "e9", .raisesExc "e9"] 0
      { documents := [{ docId := "doc9" }], images := [] }).1.getLastD
      { documents := [], images := [] }).documents.map
      (fun r => (r.extraction_status, r.extraction_retry_count))
      = [(some "processing", some 3)] ∧
    (runExtractionJob "doc9" "u9" 3
      [.raisesExc "e9", .raisesExc "e9", .raisesExc "e9", .raisesExc "e9"] 0
      { documents := [{ docId := "doc9" }], images := [] }).2
      = .maxRetriesExceededEscaped "e9" := by
  decide

/-- Every database snapshot of one attempt keeps all recorded retry counts
within the ceiling, provided the attempt's `retries` and the starting
state do. -/
theorem extract_attempt_retry_count_bounded (d u : String) (retries now : Nat)
    (hook : HookBehavior) (st : ExtState)
    (hret : retries ≤ celery_task_max_retries)
    (hst : docsRetryCountOK st = true) :
    ∀ s ∈ (extract_images_from_document d u retries hook now st).1,
      docsRetryCountOK s = true := by
  have hproc : docsRetryCountOK
      { st with documents := (updateOne (fun r => r.docId == d)
          (setProcessingExtraction now retries) st.documents).1 } = true := by
    refine updateOne_all _ _ _ ?_ _ hst
    intro r _
    simpa [setProcessingExtraction] using hret
  cases hook with
  | returns c es fs =>
    intro s hs
    simp only [extract_images_from_document, List.mem_cons, List.mem_singleton,
      List.not_mem_nil, or_false] at hs
    rcases hs with h | h | h <;> subst h
    · exact hproc
    · simpa [docsRetryCountOK] using hproc
    · refine updateOne_all _ _ _ ?_ _ (by simpa [docsRetryCountOK] using hproc)
      intro r hr
      simpa [setFinalExtraction] using hr
  | raisesSoftTimeLimit =>
    intro s hs
    simp only [extract_images_from_document, List.mem_cons, List.mem_singleton,
      List.not_mem_nil, or_false] at hs
    rcases hs with h | h <;> subst h
    · exact hproc
    · refine updateOne_all _ _ _ ?_ _ (by simpa [docsRetryCountOK] using hproc)
      intro r hr
      simpa [setTimeoutFailedExtraction] using hr
  | raisesExc m =>
    intro s hs
    simp only [extract_images_from_document, List.mem_cons,
      List.not_mem_nil, or_false] at hs
    subst hs
    exact hproc

/-- C9 (amended): across every attempt history driven by the Celery
runtime, every database snapshot keeps every job's recorded
`extraction_retry_count` within `max_retries` (3) — the bound is an
invariant of the whole lifecycle; but exceeding the ceiling does not
force `status = failed`: the exhausted extraction job is abandoned in
"processing". -/
theorem retry_count_bounded_everywhere (d u : String) (now : Nat)
    (hooks : List HookBehavior) (retries : Nat) (st : ExtState)
    (hret : retries ≤ celery_task_max_retries)
    (hst : docsRetryCountOK st = true) :
    ∀ s ∈ (runExtractionJob d u now hooks retries st).1,
      docsRetryCountOK s = true := by
  induction hooks generalizing retries st with
  | nil => intro s hs; simp [runExtractionJob] at hs
  | cons hook hooks ih =>
    intro s hs
    have hattempt := extract_attempt_retry_count_bounded d u retries now hook st
      hret hst
    simp only [runExtractionJob] at hs
    rcases hout : (extract_images_from_document d u retries hook now st).2 with
      status | _ | ⟨cd, msg⟩
    all_goals simp only [hout] at hs
    · exact hattempt s hs
    · exact hattempt s hs
    · by_cases hmax : celery_task_max_retries < retries + 1
      · simp only [hmax, ite_true] at hs
        exact hattempt s hs
      · simp only [hmax, ite_false] at hs
        rcases List.mem_append.mp hs with h | h
        · exact hattempt s h
        · have hlast : docsRetryCountOK
              ((extract_images_from_document d u retries hook now st).1.getLastD st)
              = true := by
            rcases getLastD_mem_or_eq
              (extract_images_from_document d u retries hook now st).1 st with
              hm | he
            · exact hattempt _ hm
            · rw [he]; exact hst
          exact ih (retries + 1) _ (Nat.not_lt.mp hmax) hlast s h

/-- Witness for `retry_count_bounded_everywhere`: a concrete two-attempt
history (one failure, one success). -/
theorem retry_count_bounded_everywhere_witness :
    (0 ≤ celery_task_max_retries ∧
      docsRetryCountOK { documents := [{ docId := "dw" }], images := [] } = true) ∧
    docsRetryCountOK
      ((runExtractionJob "dw" "uw" 2 [.raisesExc "e", .returns 1 [] []] 0
        { documents := [{ docId := "dw" }], images := [] }).1.getLastD
        { documents := [], images := [] }) = true :=
  ⟨⟨by decide, by decide⟩, by
    have h := retry_count_bounded_everywhere "dw" "uw" 2
      [.raisesExc "e", .returns 1 [] []] 0
      { documents := [{ docId := "dw" }], images := [] } (by decide) (by decide)
    exact h _ (by decide)⟩

/-! ## C6 — invalid aggressiveness level fails fast -/

/-- C6: for every aggressiveness level outside {1, 2, 3} and every
environment, the watermark invoker fails immediately with
`success = false` and the configuration-error message, before any
subprocess is started or any other resource is touched — the effect trace
is empty — and without raising, so the exception-driven Celery retry path
cannot fire and no job field (in particular no retry count) is
written. -/
theorem invalid_aggressiveness_fails_fast (doc_id pdf : String) (mode : Int)
    (timeoutSecs : Nat) (env : WatermarkEnv)
    (h1 : mode ≠ 1) (h2 : mode ≠ 2) (h3 : mode ≠ 3) :
    remove_watermark_with_docker doc_id pdf mode timeoutSecs env
      = (.ok (false, invalidModeMsg mode, none), []) := by
  have hm : mode ∉ ([1, 2, 3] : List Int) := by simp [h1, h2, h3]
  simp [remove_watermark_with_docker, hm]

/-- Witness for `invalid_aggressiveness_fails_fast` at level 4. -/
theorem invalid_aggressiveness_fails_fast_witness :
    ((4 : Int) ≠ 1 ∧ (4 : Int) ≠ 2 ∧ (4 : Int) ≠ 3) ∧
    remove_watermark_with_docker "d6" "/w/in.pdf" 4 300
      { pdfExists := true, run := .exited 0 "", outputFileCreated := true,
        outputFileSize := 12345 }
      = (.ok (false, invalidModeMsg 4, none), []) :=
  ⟨⟨by decide, by decide, by decide⟩,
   invalid_aggressiveness_fails_fast "d6" "/w/in.pdf" 4 300
     { pdfExists := true, run := .exited 0 "", outputFileCreated := true,
       outputFileSize := 12345 } (by decide) (by decide) (by decide)⟩

/-! ## C7 — invokers report failures in the returned result -/

/-- C7: both invoker functions return a result value for every input —
no tool-side failure escapes as an exception — and a subprocess timeout
yields a returned result with `success = false` and the timeout message
(watermark) resp. `(0, [timeout message])` (extraction). -/
theorem invokers_never_raise_timeout_reported (doc_id pdf out : String)
    (mode : Int) (timeoutSecs : Nat) (wenv : WatermarkEnv)
    (eenv : ExtractionEnv) :
    returnsResult (remove_watermark_with_docker doc_id pdf mode timeoutSecs wenv).1
      = true ∧
    returnsResult (extract_images_with_docker doc_id pdf out eenv) = true ∧
    (mode ∈ ([1, 2, 3] : List Int) → wenv.pdfExists = true →
      wenv.run = .timeout →
      (remove_watermark_with_docker doc_id pdf mode timeoutSecs wenv).1
        = .ok (false, watermarkTimeoutMsg timeoutSecs doc_id, none)) ∧
    (eenv.pdfExists = true → eenv.run = .timeout →
      extract_images_with_docker doc_id pdf out eenv
        = .ok (0, ["Docker extraction timeout for doc_id=" ++ doc_id ++
            " (5 minutes)"])) := by
  obtain ⟨wpe, wrun, woc, wsz⟩ := wenv
  obtain ⟨epe, erun, eod, eof⟩ := eenv
  refine ⟨?_, ?_, ?_, ?_⟩
  · by_cases hm : mode ∈ ([1, 2, 3] : List Int) <;>
      cases wpe <;> cases wrun <;> cases woc <;>
      simp [remove_watermark_with_docker, runSubprocess, returnsResult, hm]
  · cases epe with
    | false => simp [extract_images_with_docker, returnsResult]
    | true =>
      cases erun with
      | timeout => simp [extract_images_with_docker, runSubprocess, returnsResult]
      | raisesExc m =>
        simp [extract_images_with_docker, runSubprocess, returnsResult]
      | exited rc stderr =>
        by_cases hrc : (rc != 0) = true <;> cases eod <;>
          simp [extract_images_with_docker, runSubprocess, returnsResult, hrc]
  · intro hm hpe hrun
    subst hrun
    simp only at hpe
    subst hpe
    simp [remove_watermark_with_docker, runSubprocess, hm]
  · intro hpe hrun
    subst hrun
    simp only at hpe
    subst hpe
    simp [extract_images_with_docker, runSubprocess]

/-- Witness for `invokers_never_raise_timeout_reported` at a timing-out
environment. -/
theorem invokers_never_raise_timeout_reported_witness :
    returnsResult (remove_watermark_with_docker "d7" "/w/a.pdf" 2 300
        { pdfExists := true, run := .timeout, outputFileCreated := false,
          outputFileSize := 0 }).1 = true ∧
    returnsResult (extract_images_with_docker "d7" "/w/a.pdf" "/w/out"
        { pdfExists := true, run := .timeout, outputDirExists := false,
          outputFiles := [] }) = true ∧
    (remove_watermark_with_docker "d7" "/w/a.pdf" 2 300
        { pdfExists := true, run := .timeout, outputFileCreated := false,
          outputFileSize := 0 }).1
      = .ok (false, watermarkTimeoutMsg 300 "d7", none) ∧
    extract_images_with_docker "d7" "/w/a.pdf" "/w/out"
        { pdfExists := true, run := .timeout, outputDirExists := false,
          outputFiles := [] }
      = .ok (0, ["Docker extraction timeout for doc_id=" ++ "d7" ++
          " (5 minutes)"]) := by
  have h := invokers_never_raise_timeout_reported "d7" "/w/a.pdf" "/w/out" 2 300
    { pdfExists := true, run := .timeout, outputFileCreated := false,
      outputFileSize := 0 }
    { pdfExists := true, run := .timeout, outputDirExists := false,
      outputFiles := [] }
  exact ⟨h.1, h.2.1, h.2.2.1 (by decide) rfl rfl, h.2.2.2 rfl rfl⟩

/-! ## C10 — owned-resource lookup indistinguishability -/

/-- C10: whenever no document in the collection is simultaneously the
requested resource and owned by the requesting user — whether because the
resource does not exist at all or because it belongs to a different
user — `get_owned_resource` observably behaves identically: any two such
collections produce equal outcomes, and for a well-formed id the outcome
is the one `ResourceNotFoundError`, so a caller cannot distinguish
another user's resource from a nonexistent one. -/
theorem get_owned_resource_indistinguishable (rid uid name : String)
    (col1 col2 : List ResourceDoc)
    (h1 : col1.all (fun r => !(r.rid == rid && r.user_id == uid)) = true)
    (h2 : col2.all (fun r => !(r.rid == rid && r.user_id == uid)) = true) :
    get_owned_resource col1 rid uid name = get_owned_resource col2 rid uid name ∧
    (isValidObjectId rid = true →
      get_owned_resource col1 rid uid name
        = .error (.resourceNotFoundError name (some rid)
            (name ++ " not found or doesn't belong to you"))) := by
  have e1 : col1.find? (fun r => r.rid == rid && r.user_id == uid) = none := by
    rw [List.find?_eq_none]
    intro x hx
    have hf := List.all_eq_true.mp h1 x hx
    simp only [Bool.not_eq_true'] at hf
    simp [hf]
  have e2 : col2.find? (fun r => r.rid == rid && r.user_id == uid) = none := by
    rw [List.find?_eq_none]
    intro x hx
    have hf := List.all_eq_true.mp h2 x hx
    simp only [Bool.not_eq_true'] at hf
    simp [hf]
  constructor
  · unfold get_owned_resource
    rw [e1, e2]
  · intro hv
    unfold get_owned_resource
    rw [e1]
    simp [hv]

/-- Witness for `get_owned_resource_indistinguishable`: an empty
collection versus one where the resource exists but belongs to another
user. -/
theorem get_owned_resource_indistinguishable_witness :
    (([] : List ResourceDoc).all
        (fun r => !(r.rid == "0123456789abcdef01234567" && r.user_id == "u1")) = true ∧
      ([{ rid := "0123456789abcdef01234567", user_id := "u2", payload := "x" }] :
          List ResourceDoc).all
        (fun r => !(r.rid == "0123456789abcdef01234567" && r.user_id == "u1")) = true) ∧
    get_owned_resource [] "0123456789abcdef01234567" "u1" "Document"
      = get_owned_resource
          [{ rid := "0123456789abcdef01234567", user_id := "u2", payload := "x" }]
          "0123456789abcdef01234567" "u1" "Document" :=
  ⟨⟨by decide, by decide⟩,
   (get_owned_resource_indistinguishable "0123456789abcdef01234567" "u1" "Document"
     [] [{ rid := "0123456789abcdef01234567", user_id := "u2", payload := "x" }]
     (by decide) (by decide)).1⟩

end Elis
